import Mathlib

/-!
Verification development for the `abogen_gradio.py` web adapter.

The file shallowly embeds the adapter's own code:
  * `MockSignal` — the Qt-signal shim (callback list, ordered fault-isolated emit);
  * `log_callback` — the capped log accumulator;
  * `on_chapters_detected` — the chapter-decision subscriber;
  * `run_conversion` — the Gradio handler, parameterised by the behaviour of
    the external conversion engine (`abogen.conversion`), which is not part of
    this repository and is modelled as an abstract `EngineBehavior`:
    whether `load_numpy_kpipeline` raises, whether `ConversionThread`
    construction raises, the ordered sequence of signal emissions the worker
    performs while running, and whether the worker's `run` raises.
Python exceptions are modelled with `Except`/`Option`; emitting a signal is
modelled as invoking the (single) connected callback on shared state, exactly
as `MockSignal.emit` does.
-/

/-- Shallow embedding of a Python callback registered on a `MockSignal`.
`id` is instrumentation identifying the callback (Python object identity);
`run` takes the positional payload and the shared mutable state and returns
the updated state together with `some e` when the callback raises `e`
(state mutations made before the raise persist, as in Python). -/
structure Callback (α σ ε : Type) where
  id : Nat
  run : α → σ → σ × Option ε

/-- Embedding of `MockSignal`: `self.callbacks = []`, filled by `connect`. -/
structure MockSignal (α σ ε : Type) where
  callbacks : List (Callback α σ ε)

/-- Embedding of `MockSignal.connect`: `self.callbacks.append(callback)`. -/
def MockSignal.connect (s : MockSignal α σ ε) (cb : Callback α σ ε) :
    MockSignal α σ ε :=
  { callbacks := s.callbacks ++ [cb] }

/-- State threaded through an emit: `invoked` is the instrumented record of
callback invocations (callback id, payload) in the order they happen,
`reported` records the errors printed by the `except` branch of `emit`,
`shared` is the program state the callbacks read and write. -/
structure EmitState (α σ ε : Type) where
  invoked : List (Nat × α)
  reported : List ε
  shared : σ

/-- One iteration of the `for callback in self.callbacks` loop in
`MockSignal.emit`: invoke the callback inside `try`; a raised exception is
printed (appended to `reported`) rather than re-raised. -/
def emitStep (payload : α) (acc : EmitState α σ ε) (cb : Callback α σ ε) :
    EmitState α σ ε :=
  match cb.run payload acc.shared with
  | (g, none) =>
      { invoked := acc.invoked ++ [(cb.id, payload)]
        reported := acc.reported
        shared := g }
  | (g, some e) =>
      { invoked := acc.invoked ++ [(cb.id, payload)]
        reported := acc.reported ++ [e]
        shared := g }

/-- Embedding of `MockSignal.emit`: iterate over `self.callbacks` in order;
each callback is invoked inside `try`, and a raised exception is printed
rather than re-raised, so iteration continues and `emit` always returns. -/
def MockSignal.emit (s : MockSignal α σ ε) (payload : α)
    (st : EmitState α σ ε) : EmitState α σ ε :=
  s.callbacks.foldl (emitStep payload) st

/-- Messages delivered to `log_callback`: either a plain string or a
`(msg, color)` tuple, as the Python comment in `log_callback` documents. -/
inductive LogMsg where
  | str (s : String)
  | tup (s : String) (color : String)

/-- The string `log_callback` actually appends: the first tuple component when
the message is a tuple (`msg = msg[0]`), then `str(msg)`. -/
def logMsgStr : LogMsg → String
  | .str s => s
  | .tup s _ => s

/-- The last `n` elements of a list (Python `l[-n:]`, which is the whole list
when `n ≥ len(l)`). -/
def lastN (n : Nat) (l : List α) : List α :=
  l.drop (l.length - n)

/-- Embedding of `log_callback`: append `str(msg)` to the global `logs`, then
if the length exceeds 1000 keep only the last 1000 entries. -/
def log_callback (msg : LogMsg) (logs : List String) : List String :=
  let logs1 := logs ++ [logMsgStr msg]
  if logs1.length > 1000 then logs1.drop (logs1.length - 1000) else logs1

/-- Python `str.strip()` with no argument: remove leading and trailing
whitespace (modelled over the ASCII whitespace characters Lean's
`Char.isWhitespace` covers, which include all whitespace appearing in this
program's inputs). -/
def pyStrip (s : String) : String :=
  ⟨((s.data.dropWhile Char.isWhitespace).reverse.dropWhile
      Char.isWhitespace).reverse⟩

/-- Whether the first list is a leading segment of the second (structural
helper for `pySplitHead`). -/
def charsLead : List Char → List Char → Bool
  | [], _ => true
  | _ :: _, [] => false
  | a :: as, b :: bs => a == b && charsLead as bs

/-- Whether `needle` occurs as a contiguous run inside `hay` (structural). -/
def charsHas (needle : List Char) : List Char → Bool
  | [] => charsLead needle []
  | c :: rest => charsLead needle (c :: rest) || charsHas needle rest

/-- Whether the string `needle` occurs inside the string `hay` (Python
`needle in hay`); used to state that a message does or does not embed a
fault description. -/
def strMentions (hay needle : String) : Bool :=
  charsHas needle.data hay.data

/-- The first component of Python `s.split(sep)` for a non-empty `sep`: the
part of `s` before the first occurrence of `sep`, or all of `s` when `sep`
does not occur. `split` always returns at least one component, so the
Python indexing `[0]` cannot fail. -/
def pySplitHeadChars (sep : List Char) : List Char → List Char
  | [] => []
  | c :: rest =>
      if charsLead sep (c :: rest) then []
      else c :: pySplitHeadChars sep rest

/-- Python `s.split(sep)[0]`. -/
def pySplitHead (sep s : String) : String :=
  ⟨pySplitHeadChars sep.data s.data⟩

/-- The `gr.File` value Gradio passes for an upload: the only attribute
`run_conversion` reads is `.name`. -/
structure GFile where
  name : String

/-- State of the `ConversionThread` object as configured by `run_conversion`:
the constructor keyword arguments (lines 177-192) followed by the attributes
set directly afterwards (lines 195-199), plus the internal
`_chapter_options_event`, modelled as a boolean flag that is initially unset.
`speed`, `start_time` and the pipeline objects carry no information the
adapter inspects, so `speed` and `start_time` are carried as opaque naturals
and the pipeline objects are omitted. -/
structure ThreadState where
  file_name : String
  lang_code : String
  speed : Nat
  voice : String
  save_option : String
  output_folder : String
  subtitle_mode : String
  output_format : String
  start_time : Nat
  total_char_count : Nat
  use_gpu : Bool
  from_queue : Bool
  is_direct_text : Bool
  subtitle_format : String
  merge_chapters_at_end : Bool
  save_chapters_separately : Bool
  replace_single_newlines : Bool
  chapter_options_event : Bool

/-- The `result_container` dict: `{"status": None, "path": None}`. A written
`path` may itself be Python `None`, which is indistinguishable from the unset
value by the truthiness test `run_conversion` performs, so both are `none`. -/
structure ResultContainer where
  status : Option String
  path : Option String

/-- Shared state visible to the signal subscribers `run_conversion` connects:
the global `logs` list, the `result_container`, and the `thread` object
(whose attributes `on_chapters_detected` mutates). -/
structure WorkerState where
  logs : List String
  result : ResultContainer
  thread : ThreadState

/-- Embedding of the `on_chapters_detected` subscriber: print, force the
default chapter decision on the thread object, and set
`thread._chapter_options_event` (the console print is not modelled). -/
def on_chapters_detected (count : Nat) (t : ThreadState) : ThreadState :=
  { t with save_chapters_separately := false
           merge_chapters_at_end := true
           chapter_options_event := true }

/-- One signal emission performed by the running worker thread, i.e. one call
of `thread.<signal>.emit(...)` inside the external engine's `run`. A
`conversionFinished` payload carries the status and the output path, the
latter possibly Python `None`. -/
inductive EngineEvent where
  | logUpdated (msg : LogMsg)
  | progressUpdated (percent : Nat) (etr : String)
  | conversionFinished (status : String) (path : Option String)
  | chaptersDetected (count : Nat)

/-- Effect of one worker-side signal emission on the shared state, through
the subscribers `run_conversion` connected: `log_updated → on_log`
(which calls `log_callback`), `progress_updated → on_progress` (a pure UI
call, no shared-state effect), `conversion_finished → on_finished` (writes
the result container), `chapters_detected → on_chapters_detected`. Each
signal has exactly the one subscriber connected at lines 215-217 and 240. -/
def workerStep (st : WorkerState) (ev : EngineEvent) : WorkerState :=
  match ev with
  | .logUpdated msg => { st with logs := log_callback msg st.logs }
  | .progressUpdated _ _ => st
  | .conversionFinished status path =>
      { st with result := { status := some status, path := path } }
  | .chaptersDetected count =>
      { st with thread := on_chapters_detected count st.thread }

/-- Behaviour of the external conversion engine (`abogen.conversion`), which
is outside this repository. `loadPipeline` is the outcome of
`load_numpy_kpipeline()`; `construct` the outcome of the
`ConversionThread(...)` constructor call; `events` the ordered sequence of
signal emissions the worker performs when run; `runFault` is `some e` when
the worker's `run` ends by raising an unhandled exception `e` — Python's
threading machinery prints such an exception on the worker thread and
discards it, `join()` still returns, and nothing of it reaches the handler;
`tracebackText` is what `traceback.format_exc()` renders at the handler's
`except` block. -/
structure EngineBehavior where
  loadPipeline : Except String Unit
  construct : Except String Unit
  events : List EngineEvent
  runFault : Option String
  tracebackText : String

/-- Environment values `run_conversion` reads: the working directory (for
`os.path.join(os.getcwd(), "output")`) and `time.time()`. `os.makedirs` is
modelled as succeeding. -/
structure RunEnv where
  cwd : String
  start_time : Nat

/-- The web-form arguments of `run_conversion` (the trailing `progress`
argument is the Gradio progress object, not a form value). `speed` is opaque
to the adapter beyond the `float(speed)` coercion, which cannot fail on the
slider's float, so it is carried as a natural. -/
structure RunInputs where
  text_input : String
  file_input : Option GFile
  language_str : String
  voice : String
  speed : Nat
  output_format : String
  subtitle_mode : String
  subtitle_format : String
  split_pattern : String

/-- Instrumentation of one `run_conversion` call: whether the
`ConversionThread` was constructed, whether its `start()` ran, and the
configuration it was given. -/
structure RunTrace where
  workerConstructed : Bool
  workerStarted : Bool
  config : Option ThreadState

/-- Rendering of the handler's normal return (lines 248-254):
`log_str = "\n".join(logs)`, then the output path if the container holds a
truthy (non-`None`, non-empty) path, else `None`. -/
def renderResult (st : WorkerState) : String × Option String :=
  let log_str := String.intercalate "\n" st.logs
  match st.result.path with
  | some p => if p = "" then (log_str, none) else (log_str, some p)
  | none => (log_str, none)

/-- The `ConversionThread` configuration `run_conversion` builds for a given
input (constructor arguments plus the attributes set right after). -/
def mkThreadState (env : RunEnv) (inp : RunInputs) (file_name : String)
    (is_direct_text : Bool) (lang_code : String) : ThreadState :=
  { file_name := file_name
    lang_code := lang_code
    speed := inp.speed
    voice := inp.voice
    save_option := "Choose output folder"
    output_folder := env.cwd ++ "/output"
    subtitle_mode := inp.subtitle_mode
    output_format := inp.output_format
    start_time := env.start_time
    total_char_count := if is_direct_text then inp.text_input.length else 1000
    use_gpu := true
    from_queue := false
    is_direct_text := is_direct_text
    subtitle_format := inp.subtitle_format
    merge_chapters_at_end := true
    save_chapters_separately := false
    replace_single_newlines := false
    chapter_options_event := false }

/-- The part of `run_conversion` from line 159 on, reached once an input
(file or direct text) has been determined: log the pipeline-loading line,
load the pipeline, construct and start the worker inside `try`, join, and
render the result. A worker-side `runFault` is swallowed by the thread
machinery (see `EngineBehavior`), so it does not influence the return
value. -/
def runWithInput (env : RunEnv) (inp : RunInputs) (engine : EngineBehavior)
    (file_name : String) (is_direct_text : Bool) :
    (String × Option String) × RunTrace :=
  let lang_code := pySplitHead " - " inp.language_str
  let logs1 : List String := [] ++ ["Loading Kokoro pipeline..."]
  match engine.loadPipeline with
  | .error e =>
      (("Error loading pipeline: " ++ e, none),
       { workerConstructed := false, workerStarted := false, config := none })
  | .ok _ =>
      match engine.construct with
      | .error e =>
          (("Error: " ++ e ++ "\n" ++ engine.tracebackText, none),
           { workerConstructed := false, workerStarted := false,
             config := none })
      | .ok _ =>
          let thread0 := mkThreadState env inp file_name is_direct_text
            lang_code
          let st0 : WorkerState :=
            { logs := logs1
              result := { status := none, path := none }
              thread := thread0 }
          let stF := engine.events.foldl workerStep st0
          (renderResult stF,
           { workerConstructed := true, workerStarted := true,
             config := some thread0 })

/-- Embedding of `run_conversion`. `logs_prev` is the process-global `logs`
list left over from any previous job; the first statement `logs = []`
discards it. Input determination follows lines 144-157: an uploaded file
wins, otherwise non-whitespace text is used directly, otherwise the
validation error is returned with no worker ever constructed. -/
def run_conversion (env : RunEnv) (inp : RunInputs) (logs_prev : List String)
    (engine : EngineBehavior) : (String × Option String) × RunTrace :=
  match inp.file_input with
  | some f => runWithInput env inp engine f.name false
  | none =>
      if pyStrip inp.text_input ≠ "" then
        runWithInput env inp engine inp.text_input true
      else
        (("Error: Please provide text or a file.", none),
         { workerConstructed := false, workerStarted := false,
           config := none })

/-- Embedding of `self._chapter_options_event.wait()` as performed by the
engine right after emitting `chapters_detected`: `some ()` when the event
flag is set (the wait returns), `none` when it is unset — which, with no
other thread around to set it, is a deadlock. -/
def eventWait (t : ThreadState) : Option Unit :=
  if t.chapter_options_event then some () else none

/-- The chapter-decision rendezvous as the engine executes it on the worker
thread: `self.chapters_detected.emit(total_chapters)` (delivered to the one
subscriber `run_conversion` connected, `on_chapters_detected`) immediately
followed by `self._chapter_options_event.wait()`. The result is `none`
exactly when the wait would block forever. -/
def chapterRendezvous (st : WorkerState) (count : Nat) :
    Option WorkerState :=
  let st1 := workerStep st (.chaptersDetected count)
  match eventWait st1.thread with
  | some _ => some st1
  | none => none

/-- State of the two-thread system formed by the handler blocked in
`thread.join()` and the worker executing the engine's `run`: the worker's
remaining signal emissions, whether the worker's unit of work has finished
(the condition `join` waits on), the shared state both threads access, and
the value the handler has read from the shared state after its `join`
returned (`none` while the handler is still blocked). -/
structure SysState where
  pending : List EngineEvent
  workerDone : Bool
  shared : WorkerState
  observed : Option (String × Option String)

/-- One scheduler step: `true` runs the worker (perform its next signal
emission, or mark the unit of work finished when none remain), `false` runs
the handler (its `join()` returns only once the worker is done, upon which
it reads the shared logs and result container; before that the handler makes
no progress — `join` blocks). -/
def sysStep (s : SysState) (who : Bool) : SysState :=
  if who then
    match s.pending with
    | ev :: rest => { s with pending := rest, shared := workerStep s.shared ev }
    | [] => { s with workerDone := true }
  else
    if s.workerDone then
      match s.observed with
      | none => { s with observed := some (renderResult s.shared) }
      | some _ => s
    else s

/-- Run the two-thread system under an arbitrary interleaving. -/
def runSys (init : SysState) (sched : List Bool) : SysState :=
  sched.foldl sysStep init

/-- Initial system state right after `thread.start()`: the worker has its
whole emission sequence ahead of it, the handler is blocked in `join`. -/
def initSys (st0 : WorkerState) (events : List EngineEvent) : SysState :=
  { pending := events, workerDone := false, shared := st0, observed := none }

/-- Invariant of the two-thread system: the shared state is always the fold
of the already-performed emissions, the worker is only marked done once all
emissions are performed, and any value the handler observed was rendered
from the fully-written final shared state. -/
def SysInv (st0 : WorkerState) (events : List EngineEvent)
    (s : SysState) : Prop :=
  (∃ done, events = done ++ s.pending ∧ s.shared = done.foldl workerStep st0)
  ∧ (s.workerDone = true → s.pending = [])
  ∧ (∀ v, s.observed = some v →
      s.workerDone = true ∧ v = renderResult (events.foldl workerStep st0))

/-- The log message an engine emission delivers to `log_callback`, when it is
a `log_updated` emission. -/
def evLogMsg : EngineEvent → Option LogMsg
  | .logUpdated msg => some msg
  | _ => none

/-- Whether an engine emission is a `conversion_finished` emission. -/
def isFinishedEv : EngineEvent → Bool
  | .conversionFinished _ _ => true
  | _ => false

/-- The ordered log history of one job: the pipeline-loading line appended by
`run_conversion` itself, followed by the text of every `log_updated` emission
of the worker, in emission order. -/
def logHistory (events : List EngineEvent) : List String :=
  "Loading Kokoro pipeline..." :: (events.filterMap evLogMsg).map logMsgStr

/-- A concrete environment used by the witnesses below. -/
def exEnv : RunEnv :=
  { cwd := "/srv", start_time := 7 }

/-- Concrete form inputs with direct text and no uploaded file. -/
def exInputsText : RunInputs :=
  { text_input := "hello world"
    file_input := none
    language_str := "a - American English"
    voice := "af_heart"
    speed := 1
    output_format := "mp3"
    subtitle_mode := "Disabled"
    subtitle_format := "srt"
    split_pattern := "\\n+" }

/-- Concrete form inputs with whitespace-only text and no uploaded file. -/
def exInputsEmpty : RunInputs :=
  { exInputsText with text_input := "  \n " }

/-- Concrete form inputs with both an uploaded file and non-empty text. -/
def exInputsBoth : RunInputs :=
  { exInputsText with file_input := some { name := "/tmp/book.epub" } }

/-- A concrete engine behaviour: everything succeeds, the worker logs two
lines and finishes with an output path. -/
def exEngineOk : EngineBehavior :=
  { loadPipeline := .ok ()
    construct := .ok ()
    events := [.logUpdated (.str "converting"),
               .progressUpdated 50 "1m",
               .logUpdated (.tup "done" "green"),
               .conversionFinished "success" (some "/srv/output/book.mp3")]
    runFault := none
    tracebackText := "" }

/-- A concrete engine behaviour whose `load_numpy_kpipeline` raises. -/
def exEngineLoadFail : EngineBehavior :=
  { exEngineOk with loadPipeline := .error "No module named kokoro" }

/-- A concrete engine behaviour whose `ConversionThread(...)` call raises. -/
def exEngineConstructFail : EngineBehavior :=
  { exEngineOk with construct := .error "bad voice", tracebackText := "tb" }

/-- A concrete engine behaviour whose worker `run` raises an unhandled
exception after emitting nothing; the `conversion_finished` signal never
fires. -/
def exEngineWorkerFault : EngineBehavior :=
  { exEngineOk with events := [], runFault := some "boom" }

/-- A concrete engine behaviour that runs to completion without ever
emitting `conversion_finished`. -/
def exEngineNoFinish : EngineBehavior :=
  { exEngineOk with
    events := [.logUpdated (.str "converting"), .progressUpdated 50 "1m"] }

/-- A concrete shared state as built by `run_conversion` for the text input,
used by the concurrency witness. -/
def exShared : WorkerState :=
  { logs := ["Loading Kokoro pipeline..."]
    result := { status := none, path := none }
    thread := mkThreadState exEnv exInputsText "hello world" true "a" }

/-! Helper lemmas. -/

theorem lastN_eq_self {n : Nat} {l : List α} (h : l.length ≤ n) :
    lastN n l = l := by
  unfold lastN
  rw [Nat.sub_eq_zero_of_le h, List.drop_zero]

theorem lastN_length (n : Nat) (l : List α) :
    (lastN n l).length = min n l.length := by
  unfold lastN
  rw [List.length_drop]
  omega

theorem lastN_append_left (n : Nat) (xs ys : List α) :
    lastN n (lastN n xs ++ ys) = lastN n (xs ++ ys) := by
  rcases Nat.le_total xs.length n with h | h
  · rw [lastN_eq_self h]
  · unfold lastN
    rw [List.drop_append_eq_append_drop, List.drop_append_eq_append_drop,
      List.drop_drop]
    have h1 : (List.drop (xs.length - n) xs).length = n := by
      rw [List.length_drop]; omega
    congr 2 <;> simp [h1, List.length_append, List.length_drop] <;> omega

theorem log_callback_eq_lastN (msg : LogMsg) (logs : List String) :
    log_callback msg logs = lastN 1000 (logs ++ [logMsgStr msg]) := by
  unfold log_callback lastN
  simp only []
  split
  · rfl
  · next h =>
      have h0 : (logs ++ [logMsgStr msg]).length - 1000 = 0 := by
        simp only [List.length_append, List.length_singleton] at h ⊢
        omega
      rw [h0, List.drop_zero]

theorem foldl_log_callback (msgs : List LogMsg) (init : List String)
    (hinit : init.length ≤ 1000) :
    msgs.foldl (fun l m => log_callback m l) init
      = lastN 1000 (init ++ msgs.map logMsgStr) := by
  induction msgs generalizing init with
  | nil => simp [lastN_eq_self hinit]
  | cons m ms ih =>
      rw [List.foldl_cons]
      have hlen : (log_callback m init).length ≤ 1000 := by
        rw [log_callback_eq_lastN, lastN_length]; omega
      rw [ih (log_callback m init) hlen, log_callback_eq_lastN,
        lastN_append_left]
      simp

theorem emitStep_spec (payload : α) (acc : EmitState α σ ε)
    (cb : Callback α σ ε) :
    (emitStep payload acc cb).invoked = acc.invoked ++ [(cb.id, payload)]
    ∧ ∃ es, (emitStep payload acc cb).reported = acc.reported ++ es := by
  unfold emitStep
  rcases h : cb.run payload acc.shared with ⟨g, _ | e⟩ <;> simp [h]

theorem foldl_emitStep_spec (payload : α) (cbs : List (Callback α σ ε))
    (st : EmitState α σ ε) :
    ((cbs.foldl (emitStep payload) st).invoked
      = st.invoked ++ cbs.map (fun cb => (cb.id, payload)))
    ∧ ∃ es, (cbs.foldl (emitStep payload) st).reported
      = st.reported ++ es := by
  induction cbs generalizing st with
  | nil => exact ⟨by simp, [], by simp⟩
  | cons cb cbs ih =>
      rw [List.foldl_cons]
      obtain ⟨h1, es, h2⟩ := ih (emitStep payload st cb)
      obtain ⟨g1, es0, g2⟩ := emitStep_spec payload st cb
      constructor
      · rw [h1, g1]; simp
      · exact ⟨es0 ++ es, by rw [h2, g2]; simp⟩

theorem foldl_connect_callbacks (regs : List (Callback α σ ε))
    (s : MockSignal α σ ε) :
    (regs.foldl MockSignal.connect s).callbacks = s.callbacks ++ regs := by
  induction regs generalizing s with
  | nil => simp
  | cons cb regs ih =>
      rw [List.foldl_cons, ih]
      simp [MockSignal.connect]

theorem foldl_workerStep_logs (events : List EngineEvent) (st : WorkerState) :
    (events.foldl workerStep st).logs
      = (events.filterMap evLogMsg).foldl (fun l m => log_callback m l)
          st.logs := by
  induction events generalizing st with
  | nil => rfl
  | cons ev evs ih =>
      cases ev <;>
        simp [List.foldl_cons, workerStep, evLogMsg, List.filterMap_cons, ih]

theorem foldl_workerStep_result_no_finished (events : List EngineEvent)
    (st : WorkerState) (h : ∀ ev ∈ events, isFinishedEv ev = false) :
    (events.foldl workerStep st).result = st.result := by
  induction events generalizing st with
  | nil => rfl
  | cons ev evs ih =>
      rw [List.foldl_cons]
      have hev := h ev (by simp)
      have hrest : ∀ e ∈ evs, isFinishedEv e = false := fun e he =>
        h e (by simp [he])
      rw [ih _ hrest]
      cases ev <;> simp [workerStep, isFinishedEv] at hev ⊢

theorem foldl_workerStep_result_last_finished (evs₁ evs₂ : List EngineEvent)
    (status : String) (p : Option String) (st : WorkerState)
    (h : ∀ ev ∈ evs₂, isFinishedEv ev = false) :
    ((evs₁ ++ EngineEvent.conversionFinished status p :: evs₂).foldl
        workerStep st).result
      = { status := some status, path := p } := by
  rw [List.foldl_append, List.foldl_cons,
    foldl_workerStep_result_no_finished _ _ h]
  rfl

theorem runWithInput_ok (env : RunEnv) (inp : RunInputs)
    (engine : EngineBehavior) (file_name : String) (is_direct_text : Bool)
    (hload : engine.loadPipeline = .ok ()) (hcons : engine.construct = .ok ()) :
    runWithInput env inp engine file_name is_direct_text
      = (renderResult (engine.events.foldl workerStep
          { logs := ["Loading Kokoro pipeline..."]
            result := { status := none, path := none }
            thread := mkThreadState env inp file_name is_direct_text
              (pySplitHead " - " inp.language_str) }),
         { workerConstructed := true, workerStarted := true,
           config := some (mkThreadState env inp file_name is_direct_text
              (pySplitHead " - " inp.language_str)) }) := by
  unfold runWithInput
  rw [hload, hcons]
  rfl

theorem run_conversion_text_branch (env : RunEnv) (inp : RunInputs)
    (logs_prev : List String) (engine : EngineBehavior)
    (hfile : inp.file_input = none) (htext : pyStrip inp.text_input ≠ "") :
    run_conversion env inp logs_prev engine
      = runWithInput env inp engine inp.text_input true := by
  unfold run_conversion
  rw [hfile]
  simp [htext]

theorem run_conversion_file_branch (env : RunEnv) (inp : RunInputs)
    (logs_prev : List String) (engine : EngineBehavior) (f : GFile)
    (hfile : inp.file_input = some f) :
    run_conversion env inp logs_prev engine
      = runWithInput env inp engine f.name false := by
  unfold run_conversion
  rw [hfile]

theorem initSys_inv (st0 : WorkerState) (events : List EngineEvent) :
    SysInv st0 events (initSys st0 events) := by
  refine ⟨⟨[], by simp [initSys], by simp [initSys]⟩, ?_, ?_⟩
  · intro h
    simp [initSys] at h
  · intro v hv
    simp [initSys] at hv

theorem sysStep_preserves_inv (st0 : WorkerState) (events : List EngineEvent)
    (s : SysState) (who : Bool) (h : SysInv st0 events s) :
    SysInv st0 events (sysStep s who) := by
  obtain ⟨⟨done, hdone, hsh⟩, hwd, hobs⟩ := h
  cases who with
  | false =>
      by_cases hw : s.workerDone = true
      · rcases ho : s.observed with _ | v
        · have hstep : sysStep s false
              = { s with observed := some (renderResult s.shared) } := by
            simp [sysStep, hw, ho]
          have hp : s.pending = [] := hwd hw
          have hshared : s.shared = events.foldl workerStep st0 := by
            rw [hsh, hdone, hp, List.append_nil]
          rw [hstep]
          refine ⟨⟨done, hdone, hsh⟩, fun _ => hp, ?_⟩
          intro v hv
          simp only [Option.some.injEq] at hv
          exact ⟨hw, by rw [← hv, hshared]⟩
        · have hstep : sysStep s false = s := by simp [sysStep, hw, ho]
          rw [hstep]
          exact ⟨⟨done, hdone, hsh⟩, hwd, hobs⟩
      · have hstep : sysStep s false = s := by simp [sysStep, hw]
        rw [hstep]
        exact ⟨⟨done, hdone, hsh⟩, hwd, hobs⟩
  | true =>
      rcases hp : s.pending with _ | ⟨ev, rest⟩
      · have hstep : sysStep s true = { s with workerDone := true } := by
          simp [sysStep, hp]
        rw [hstep]
        refine ⟨⟨done, by rw [hdone, hp], hsh⟩, fun _ => by simp [hp], ?_⟩
        intro v hv
        simp only at hv
        obtain ⟨_, hv2⟩ := hobs v hv
        exact ⟨rfl, hv2⟩
      · have hstep : sysStep s true
            = { s with pending := rest, shared := workerStep s.shared ev } := by
          simp [sysStep, hp]
        rw [hstep]
        refine ⟨⟨done ++ [ev], ?_, ?_⟩, ?_, ?_⟩
        · rw [hdone, hp]
          simp
        · rw [List.foldl_append, ← hsh]
          rfl
        · intro hw2
          simp only at hw2
          exact absurd (hwd hw2) (by simp [hp])
        · intro v hv
          simp only at hv
          obtain ⟨hw2, _⟩ := hobs v hv
          exact absurd (hwd hw2) (by simp [hp])

theorem foldl_sysStep_inv (st0 : WorkerState) (events : List EngineEvent)
    (sched : List Bool) :
    ∀ s, SysInv st0 events s → SysInv st0 events (sched.foldl sysStep s) := by
  induction sched with
  | nil => exact fun s h => h
  | cons b bs ih =>
      exact fun s h => ih _ (sysStep_preserves_inv st0 events s b h)

theorem runSys_inv (st0 : WorkerState) (events : List EngineEvent)
    (sched : List Bool) :
    SysInv st0 events (runSys (initSys st0 events) sched) :=
  foldl_sysStep_inv st0 events sched _ (initSys_inv st0 events)

/-! Claim theorems. -/

/-- C1: for every sequence of subscriber registrations on a notification
channel (`MockSignal.connect`) and every publish (`MockSignal.emit`), every
subscriber registered at the time of the emit is invoked exactly once, in
registration order, with the event payload passed positionally — the
instrumented invocation record grows by exactly one `(subscriber, payload)`
entry per registered callback, in registration order, whether or not any
callback faults — and a fault raised inside a subscriber is caught and
reported (appended to the report list, the earlier reports kept) rather
than re-raised, so it prevents neither the remaining subscribers nor
`emit`'s return. -/
theorem emit_invokes_each_subscriber_once_in_order {α σ ε : Type}
    (regs : List (Callback α σ ε)) (payload : α) (st : EmitState α σ ε) :
    ((MockSignal.emit (regs.foldl MockSignal.connect ⟨[]⟩) payload st).invoked
        = st.invoked ++ regs.map (fun cb => (cb.id, payload)))
    ∧ ∃ es,
      (MockSignal.emit (regs.foldl MockSignal.connect ⟨[]⟩) payload st).reported
        = st.reported ++ es := by
  have hcb : (regs.foldl MockSignal.connect ⟨[]⟩).callbacks = regs := by
    rw [foldl_connect_callbacks]
    rfl
  unfold MockSignal.emit
  rw [hcb]
  exact foldl_emitStep_spec payload regs st

/-- C2: publishing the chapters-detected notification reaches its sole
subscriber `on_chapters_detected`, which unconditionally applies the fixed
default decision (`save_chapters_separately = False`,
`merge_chapters_at_end = True`) and sets `thread._chapter_options_event`, so
the worker's immediately following blocking wait on that event resolves: the
rendezvous always returns `some`, never the deadlock outcome `none`. -/
theorem chapters_detected_resolves_rendezvous (st : WorkerState)
    (count : Nat) :
    ∃ st1, chapterRendezvous st count = some st1
      ∧ st1.thread.save_chapters_separately = false
      ∧ st1.thread.merge_chapters_at_end = true
      ∧ st1.thread.chapter_options_event = true := by
  refine ⟨workerStep st (.chaptersDetected count), ?_, rfl, rfl, rfl⟩
  simp [chapterRendezvous, workerStep, on_chapters_detected, eventWait]

/-- C3: when no file is uploaded and the text payload is empty or
whitespace-only, `run_conversion` returns the user-facing validation error
with no output file, and no worker is constructed or started. -/
theorem run_conversion_rejects_empty_input (env : RunEnv) (inp : RunInputs)
    (logs_prev : List String) (engine : EngineBehavior)
    (hfile : inp.file_input = none) (htext : pyStrip inp.text_input = "") :
    run_conversion env inp logs_prev engine
      = (("Error: Please provide text or a file.", none),
         { workerConstructed := false, workerStarted := false,
           config := none }) := by
  unfold run_conversion
  rw [hfile]
  simp [htext]

/-- C3 witness at a concrete whitespace-only submission. -/
theorem run_conversion_rejects_empty_input_witness :
    run_conversion exEnv exInputsEmpty [] exEngineOk
      = (("Error: Please provide text or a file.", none),
         { workerConstructed := false, workerStarted := false,
           config := none }) :=
  run_conversion_rejects_empty_input exEnv exInputsEmpty [] exEngineOk rfl
    (by rfl)

/-- C5: the log accumulator is an ordered, append-only sequence capped at the
1000 most recent entries — folding any sequence of messages through
`log_callback` from any in-cap starting state leaves exactly the last 1000
of the appended history, oldest entries evicted first — and it is reset at
the start of each job: the handler's result never depends on the global log
list left by a previous job. -/
theorem log_accumulator_capped_and_reset (msgs : List LogMsg)
    (init : List String) (env : RunEnv) (inp : RunInputs)
    (logs_prev : List String) (engine : EngineBehavior)
    (hinit : init.length ≤ 1000) :
    msgs.foldl (fun l m => log_callback m l) init
      = lastN 1000 (init ++ msgs.map logMsgStr)
    ∧ run_conversion env inp logs_prev engine
      = run_conversion env inp [] engine :=
  ⟨foldl_log_callback msgs init hinit, rfl⟩

/-- C5 witness: a concrete fold past the cap (1002 copies of one message
appended to an initially empty accumulator leave exactly 1000), and a
concrete job whose result ignores a stale global log list. -/
theorem log_accumulator_capped_and_reset_witness :
    (List.replicate 1002 (LogMsg.str "x")).foldl
        (fun l m => log_callback m l) []
      = lastN 1000 ([] ++ (List.replicate 1002 (LogMsg.str "x")).map logMsgStr)
    ∧ run_conversion exEnv exInputsText ["stale line"] exEngineOk
      = run_conversion exEnv exInputsText [] exEngineOk :=
  log_accumulator_capped_and_reset (List.replicate 1002 (LogMsg.str "x")) []
    exEnv exInputsText ["stale line"] exEngineOk (by simp)

/-- C7: when `load_numpy_kpipeline` raises, `run_conversion` returns an error
message embedding the underlying fault description together with an absent
file reference, and no worker is constructed or started — for either input
branch (uploaded file or direct text). -/
theorem run_conversion_pipeline_load_failure (env : RunEnv) (inp : RunInputs)
    (logs_prev : List String) (engine : EngineBehavior) (e : String)
    (hinp : inp.file_input.isSome = true ∨ pyStrip inp.text_input ≠ "")
    (hload : engine.loadPipeline = .error e) :
    run_conversion env inp logs_prev engine
      = (("Error loading pipeline: " ++ e, none),
         { workerConstructed := false, workerStarted := false,
           config := none }) := by
  have hbranch : ∃ fn idt, run_conversion env inp logs_prev engine
      = runWithInput env inp engine fn idt := by
    cases hf : inp.file_input with
    | some f =>
        exact ⟨f.name, false,
          run_conversion_file_branch env inp logs_prev engine f hf⟩
    | none =>
        rcases hinp with h | h
        · rw [hf] at h
          simp at h
        · exact ⟨inp.text_input, true,
            run_conversion_text_branch env inp logs_prev engine hf h⟩
  obtain ⟨fn, idt, heq⟩ := hbranch
  rw [heq]
  unfold runWithInput
  rw [hload]

/-- C7 witness at a concrete text submission whose pipeline load raises. -/
theorem run_conversion_pipeline_load_failure_witness :
    run_conversion exEnv exInputsText [] exEngineLoadFail
      = (("Error loading pipeline: " ++ "No module named kokoro", none),
         { workerConstructed := false, workerStarted := false,
           config := none }) :=
  run_conversion_pipeline_load_failure exEnv exInputsText [] exEngineLoadFail
    "No module named kokoro" (Or.inr (by decide)) rfl

theorem renderResult_some (st : WorkerState) (p : String) (hp : p ≠ "")
    (h : st.result.path = some p) :
    renderResult st = (String.intercalate "\n" st.logs, some p) := by
  unfold renderResult
  rw [h]
  simp [hp]

theorem renderResult_none (st : WorkerState) (h : st.result.path = none) :
    renderResult st = (String.intercalate "\n" st.logs, none) := by
  unfold renderResult
  rw [h]

theorem fold_logs_history (events : List EngineEvent) (r : ResultContainer)
    (t : ThreadState) :
    (events.foldl workerStep
        { logs := ["Loading Kokoro pipeline..."], result := r,
          thread := t }).logs
      = lastN 1000 (logHistory events) := by
  rw [foldl_workerStep_logs]
  rw [foldl_log_callback _ _ (by simp)]
  rfl

/-- C4: when the job-finished notification fires with a non-empty output
path (and no later finished notification overwrites it), `run_conversion`
returns the newline-joined accumulated log history of the job as its first
component and exactly the engine-reported output path as its second. -/
theorem run_conversion_success_returns_logs_and_path (env : RunEnv)
    (inp : RunInputs) (logs_prev : List String) (engine : EngineBehavior)
    (status p : String) (evs₁ evs₂ : List EngineEvent)
    (hfile : inp.file_input = none) (htext : pyStrip inp.text_input ≠ "")
    (hload : engine.loadPipeline = .ok ()) (hcons : engine.construct = .ok ())
    (hev : engine.events
      = evs₁ ++ EngineEvent.conversionFinished status (some p) :: evs₂)
    (hafter : ∀ ev ∈ evs₂, isFinishedEv ev = false) (hp : p ≠ "") :
    (run_conversion env inp logs_prev engine).1
      = (String.intercalate "\n" (lastN 1000 (logHistory engine.events)),
         some p) := by
  rw [run_conversion_text_branch env inp logs_prev engine hfile htext,
    runWithInput_ok env inp engine inp.text_input true hload hcons]
  have hres : (engine.events.foldl workerStep
      { logs := ["Loading Kokoro pipeline..."]
        result := { status := none, path := none }
        thread := mkThreadState env inp inp.text_input true
          (pySplitHead " - " inp.language_str) }).result
      = { status := some status, path := some p } := by
    rw [hev]
    exact foldl_workerStep_result_last_finished _ _ _ _ _ hafter
  show renderResult _ = _
  rw [renderResult_some _ p hp (by rw [hres]), fold_logs_history]

/-- C4 witness at a concrete successful job. -/
theorem run_conversion_success_witness :
    (run_conversion exEnv exInputsText [] exEngineOk).1
      = (String.intercalate "\n" (lastN 1000 (logHistory exEngineOk.events)),
         some "/srv/output/book.mp3") :=
  run_conversion_success_returns_logs_and_path exEnv exInputsText []
    exEngineOk "success" "/srv/output/book.mp3"
    [.logUpdated (.str "converting"), .progressUpdated 50 "1m",
     .logUpdated (.tup "done" "green")] []
    rfl (by decide) rfl rfl rfl (by simp) (by decide)

/-- C8: when the worker runs to completion but the job-finished notification
never fires, `run_conversion` returns the accumulated log text with an
absent file reference, the worker having been started. -/
theorem run_conversion_silent_noncompletion (env : RunEnv) (inp : RunInputs)
    (logs_prev : List String) (engine : EngineBehavior)
    (hfile : inp.file_input = none) (htext : pyStrip inp.text_input ≠ "")
    (hload : engine.loadPipeline = .ok ()) (hcons : engine.construct = .ok ())
    (hnofin : ∀ ev ∈ engine.events, isFinishedEv ev = false) :
    (run_conversion env inp logs_prev engine).1
      = (String.intercalate "\n" (lastN 1000 (logHistory engine.events)),
         none)
    ∧ (run_conversion env inp logs_prev engine).2.workerStarted = true := by
  rw [run_conversion_text_branch env inp logs_prev engine hfile htext,
    runWithInput_ok env inp engine inp.text_input true hload hcons]
  refine ⟨?_, rfl⟩
  have hres := foldl_workerStep_result_no_finished engine.events
    { logs := ["Loading Kokoro pipeline..."]
      result := { status := none, path := none }
      thread := mkThreadState env inp inp.text_input true
        (pySplitHead " - " inp.language_str) } hnofin
  show renderResult _ = _
  rw [renderResult_none _ (by rw [hres]), fold_logs_history]

/-- C8 witness at a concrete job that never reports completion. -/
theorem run_conversion_silent_noncompletion_witness :
    (run_conversion exEnv exInputsText [] exEngineNoFinish).1
      = (String.intercalate "\n"
          (lastN 1000 (logHistory exEngineNoFinish.events)), none)
    ∧ (run_conversion exEnv exInputsText [] exEngineNoFinish).2.workerStarted
        = true :=
  run_conversion_silent_noncompletion exEnv exInputsText [] exEngineNoFinish
    rfl (by decide) rfl rfl (by simp [exEngineNoFinish, isFinishedEv])

/-- C6 counterexample: a job with valid text input whose worker `run` raises
an unhandled fault ("boom") after emitting nothing. The handler returns the
bare accumulated log line with an absent file; the returned message does not
embed the fault description at all, so the fault was not "converted into a
user-visible error string with diagnostic detail" as the claim states for
faults raised during execution. -/
theorem worker_fault_not_surfaced :
    exEngineWorkerFault.runFault = some "boom"
    ∧ (run_conversion exEnv exInputsText [] exEngineWorkerFault).1
        = ("Loading Kokoro pipeline...", none)
    ∧ strMentions
        (run_conversion exEnv exInputsText [] exEngineWorkerFault).1.1
        "boom" = false :=
  ⟨rfl, rfl, rfl⟩

/-- C6 (amended): a fault raised in the handler thread during job
construction (the `ConversionThread(...)` call inside the `try` block) is
caught at the handler boundary and converted into an error string embedding
the fault description and the formatted traceback, paired with an absent
output file, and no worker is started; a fault raised during the worker's
own execution also never escapes `run_conversion` — the thread machinery
swallows it, so the handler's return value is unchanged by it — but it
surfaces only as the silent-non-completion outcome (log text, no file), not
as an error string. -/
theorem run_conversion_fault_boundary (env : RunEnv) (inp : RunInputs)
    (logs_prev : List String) (engine : EngineBehavior) (e : String)
    (fault : Option String)
    (hinp : inp.file_input.isSome = true ∨ pyStrip inp.text_input ≠ "")
    (hload : engine.loadPipeline = .ok ())
    (hcons : engine.construct = .error e) :
    run_conversion env inp logs_prev engine
      = (("Error: " ++ e ++ "\n" ++ engine.tracebackText, none),
         { workerConstructed := false, workerStarted := false,
           config := none })
    ∧ run_conversion env inp logs_prev { engine with runFault := fault }
      = run_conversion env inp logs_prev engine := by
  refine ⟨?_, rfl⟩
  have hbranch : ∃ fn idt, run_conversion env inp logs_prev engine
      = runWithInput env inp engine fn idt := by
    cases hf : inp.file_input with
    | some f =>
        exact ⟨f.name, false,
          run_conversion_file_branch env inp logs_prev engine f hf⟩
    | none =>
        rcases hinp with h | h
        · rw [hf] at h
          simp at h
        · exact ⟨inp.text_input, true,
            run_conversion_text_branch env inp logs_prev engine hf h⟩
  obtain ⟨fn, idt, heq⟩ := hbranch
  rw [heq]
  unfold runWithInput
  rw [hload, hcons]

/-- C6 witness at a concrete construction fault, with a worker fault shown
not to influence the return value. -/
theorem run_conversion_fault_boundary_witness :
    (run_conversion exEnv exInputsText [] exEngineConstructFail
      = (("Error: " ++ "bad voice" ++ "\n"
            ++ exEngineConstructFail.tracebackText, none),
         { workerConstructed := false, workerStarted := false,
           config := none }))
    ∧ run_conversion exEnv exInputsText []
        { exEngineConstructFail with runFault := some "boom" }
      = run_conversion exEnv exInputsText [] exEngineConstructFail :=
  run_conversion_fault_boundary exEnv exInputsText [] exEngineConstructFail
    "bad voice" (some "boom") (Or.inr (by decide)) rfl rfl

/-- C9: in every interleaving of the worker thread with the handler thread
blocked in `join()`, if the handler has observed a value after its `join`
returned then the worker's unit of work had fully finished first (no
emission pending, completion flag set), and the observed value is rendered
from the fully-written final shared state — the fold of all the worker's
writes — never from a partially-written state. -/
theorem join_observes_completed_writes (st0 : WorkerState)
    (events : List EngineEvent) (sched : List Bool)
    (v : String × Option String)
    (hobs : (runSys (initSys st0 events) sched).observed = some v) :
    (runSys (initSys st0 events) sched).pending = []
    ∧ (runSys (initSys st0 events) sched).workerDone = true
    ∧ v = renderResult (events.foldl workerStep st0) := by
  obtain ⟨hseg, hwd, hob⟩ := runSys_inv st0 events sched
  obtain ⟨hdone, hv⟩ := hob v hobs
  exact ⟨hwd hdone, hdone, hv⟩

/-- C9 witness: a concrete interleaving in which the worker performs one
log write, finishes, and the handler then observes the completed state. -/
theorem join_observes_completed_writes_witness :
    (runSys (initSys exShared
        [EngineEvent.logUpdated (LogMsg.str "converting")])
        [true, true, false]).pending = []
    ∧ (runSys (initSys exShared
        [EngineEvent.logUpdated (LogMsg.str "converting")])
        [true, true, false]).workerDone = true
    ∧ ("Loading Kokoro pipeline...\nconverting",
        (none : Option String))
      = renderResult
          ([EngineEvent.logUpdated (LogMsg.str "converting")].foldl
            workerStep exShared) :=
  join_observes_completed_writes exShared
    [EngineEvent.logUpdated (LogMsg.str "converting")] [true, true, false]
    ("Loading Kokoro pipeline...\nconverting", none) (by rfl)

/-- C10: when both an uploaded file and a non-empty text payload are
provided, the uploaded file takes precedence: the job is configured with the
file's path as `file_name`, `is_direct_text` is `False`, the character-count
estimate is the file default (1000) rather than the text's length, and the
worker is started — no validation error is raised for supplying both. -/
theorem run_conversion_file_precedence (env : RunEnv) (inp : RunInputs)
    (logs_prev : List String) (engine : EngineBehavior) (f : GFile)
    (hfile : inp.file_input = some f) (htext : pyStrip inp.text_input ≠ "")
    (hload : engine.loadPipeline = .ok ())
    (hcons : engine.construct = .ok ()) :
    ∃ cfg, (run_conversion env inp logs_prev engine).2.config = some cfg
      ∧ cfg.file_name = f.name
      ∧ cfg.is_direct_text = false
      ∧ cfg.total_char_count = 1000
      ∧ (run_conversion env inp logs_prev engine).2.workerStarted = true := by
  rw [run_conversion_file_branch env inp logs_prev engine f hfile,
    runWithInput_ok env inp engine f.name false hload hcons]
  exact ⟨mkThreadState env inp f.name false
    (pySplitHead " - " inp.language_str), rfl, rfl, rfl, rfl, rfl⟩

/-- C10 witness at a concrete submission carrying both a file and text. -/
theorem run_conversion_file_precedence_witness :
    ∃ cfg, (run_conversion exEnv exInputsBoth [] exEngineOk).2.config
        = some cfg
      ∧ cfg.file_name = GFile.name ⟨"/tmp/book.epub"⟩
      ∧ cfg.is_direct_text = false
      ∧ cfg.total_char_count = 1000
      ∧ (run_conversion exEnv exInputsBoth [] exEngineOk).2.workerStarted
          = true :=
  run_conversion_file_precedence exEnv exInputsBoth [] exEngineOk
    ⟨"/tmp/book.epub"⟩ rfl (by decide) rfl rfl
